import Mathlib

/-!
Verification of the if-emotion backend servers
(`src/backend/claude_api_server.py` and `src/backend/claude_api_server_rag.py`).

The two Python files share their prompt-assembly loop, their buffered and
streaming response framing, their usage accounting and their backend invoker
verbatim; those shared pieces are embedded once below.  The RAG-only retrieval
pipeline (`retrieve_context`) is embedded over an explicit environment that
records, per collection, whether the collection handle was loaded and what its
`query` call would produce (a document list, or a raised exception).
-/

namespace IfEmotion

/-! ### Python string primitives

Character-level models of the Python `str` operations the servers use:
`str.strip`, slicing `s[:n]`, `str.lower`, the `in` substring test, and
`sep.join`.  Python strings are sequences of code points, matching Lean
`Char` lists. -/

/-- Whitespace set of Python `str.strip()` for the ASCII range. -/
def pyWhitespace (c : Char) : Bool :=
  c = ' ' || c = '\t' || c = '\n' || c = '\r' || c = '\x0b' || c = '\x0c'

/-- Python `s.strip()` on the underlying character list. -/
def pyStripChars (l : List Char) : List Char :=
  ((l.dropWhile pyWhitespace).reverse.dropWhile pyWhitespace).reverse

/-- Python `s.strip()`. -/
def pyStrip (s : String) : String :=
  ⟨pyStripChars s.data⟩

/-- Python slicing `s[:n]`. -/
def pyTake (n : Nat) (s : String) : String :=
  ⟨s.data.take n⟩

/-- Python `s.lower()` (ASCII case folding, enough for the keyword gate). -/
def pyLower (s : String) : String :=
  ⟨s.data.map Char.toLower⟩

/-- Boolean test that `p` is an initial run of `s`. -/
def listIsStart : List Char → List Char → Bool
  | [], _ => true
  | _ :: _, [] => false
  | a :: xs, b :: ys => a = b && listIsStart xs ys

/-- String `s` starts with `p`. -/
def pyStartsWith (p s : String) : Bool :=
  listIsStart p.data s.data

/-- Python substring test `needle in hay`. -/
def listHasSub (n : List Char) : List Char → Bool
  | [] => n.isEmpty
  | b :: ys => listIsStart n (b :: ys) || listHasSub n ys

/-- Python `needle in hay` on strings. -/
def pyContains (needle hay : String) : Bool :=
  listHasSub needle.data hay.data

/-- Python `sep.join(parts)`. -/
def pyJoin (sep : String) : List String → String
  | [] => ""
  | [s] => s
  | s :: t :: rest => s ++ sep ++ pyJoin sep (t :: rest)

theorem listIsStart_refl (l : List Char) : listIsStart l l = true := by
  induction l with
  | nil => rfl
  | cons a xs ih => simp [listIsStart, ih]

theorem listIsStart_append (l m : List Char) : listIsStart l (l ++ m) = true := by
  induction l with
  | nil => rfl
  | cons a xs ih => simp [listIsStart, ih]

/-! ### Data model: chat messages

A request message is a JSON object; both servers read it with
`msg.get('role', 'user')` and `msg.get('content', '')` (defaulting), and the
RAG server additionally reads `msg.get('role')` (no default) when hunting for
the retrieval query.  Both keys may therefore be absent, which `Option`
models. -/

/-- One element of the request `messages` list; `none` models an absent key. -/
structure Message where
  role : Option String
  content : Option String
deriving DecidableEq, Repr

/-! ### Persona text

`SERGIO_CORE` is the persona text shared verbatim by the two servers (lines
42-76 of `claude_api_server.py`, lines 71-105 of `claude_api_server_rag.py`).
The base server's `SERGIO_SYSTEM_PROMPT` is this text plus a trailing newline;
the RAG server's prompt template is this text plus a blank line and the
substituted context block. -/

/-- Persona text common to both server variants, without the final newline.
It is written as a concatenation of its paragraphs (content identical to the
source literal) so that length facts about it stay within the kernel's
reduction depth. -/
def SERGIO_CORE : String :=
  "You are Sergio, a Spanish-speaking psychologist who specializes in debunking abstract spiritual language and operationalizing emotional concepts into concrete, testable frameworks.\n\n" ++
  "CORE PERSONALITY:\n- Direct and brash communication style - challenge unfalsifiable claims\n- Systems-first thinker (context/culture factors, not individual blame)\n- Bilingual Spanish/English code-switching is natural for you\n- Convert abstract emotional language into concrete operational definitions\n- Apply the Identity=Interaction framework: identity emerges from relational patterns, not fixed essence\n\n" ++
  "VOICE GUIDELINES (MANDATORY):\n- NEVER use bullet points or numbered lists - always narrative flow\n- Variable sentence length pattern: short punchy + longer flowing explanation + short again\n- Validate emotional reality FIRST, then challenge interpretation\n- End with concrete operationalization: \"What specific behavior in the next 30 minutes?\"\n\n" ++
  "RHETORICAL TOOLS:\n- Aspiradora metaphor: When someone drowns in complexity, simplify to binary. \"Una aspiradora no necesita 50 tipos de suciedad etiquetados. It needs one question: Is there dirt? Yes or no?\"\n- Reframing: \"The problem isn't X. The problem is Y.\"\n- Pattern exposure: \"Here's what actually happens...\"\n- Counterexample testing: \"What would falsify that belief?\"\n\n" ++
  "SPANISH USAGE:\n- Use Spanish for emotional validation: \"Mira, eso no está mal\"\n- Use Spanish for cultural concepts: vínculos, vergüenza ajena, sobremadre\n- Use colloquial markers: tío, vale, pues, mira\n- NEVER use formal Spanish: no obstante, asimismo, consecuentemente\n\n" ++
  "ANTI-PATTERNS (NEVER DO):\n- Never pathologize neurodivergence - frame as context mismatch, not deficit\n- Never use \"Furthermore\", \"In conclusion\", \"One could argue\"\n- Never create equal-length paragraphs\n- Never give prescriptions without mechanism explanations\n\n" ++
  "EXAMPLE RESPONSE STRUCTURE:\nHook (challenge assumption) → Narrative (explain mechanism) → Operationalization (concrete action) → Provocation (opening question)"

/-- Base server `SERGIO_SYSTEM_PROMPT` (the triple-quoted literal ends with a
newline). -/
def SERGIO_SYSTEM_PROMPT : String :=
  SERGIO_CORE ++ "\n"

/-- RAG server `SERGIO_SYSTEM_PROMPT.format(personality_context=ctx)`: the
template ends with a blank line and the `personality_context` slot. -/
def sergioRagSystemPrompt (ctx : String) : String :=
  SERGIO_CORE ++ "\n\n" ++ ctx

/-! ### Prompt assembly

Both `chat_completions` handlers build the transcript identically: seed
`prompt_parts` with the `"System: "`-prefixed persona, loop over the messages
appending one rendered segment per message, and join with `"\n\n"`. -/

/-- Rendering of one message inside the `for msg in messages` loop: `system`
and `assistant` get their own tags, every other (or absent) role falls back to
`Human:`. -/
def renderMessage (m : Message) : String :=
  let role := m.role.getD "user"
  let content := m.content.getD ""
  if role = "system" then "System: " ++ content
  else if role = "assistant" then "Assistant: " ++ content
  else "Human: " ++ content

/-- The `prompt_parts` list after the loop: persona segment first, then one
segment per message, in order. -/
def promptParts (persona : String) (msgs : List Message) : List String :=
  msgs.foldl (fun acc m => acc ++ [renderMessage m]) ["System: " ++ persona]

/-- Final transcript: `"\n\n".join(prompt_parts)`. -/
def assemblePrompt (persona : String) (msgs : List Message) : String :=
  pyJoin "\n\n" (promptParts persona msgs)

/-- Base server transcript for a request. -/
def basePrompt (msgs : List Message) : String :=
  assemblePrompt SERGIO_SYSTEM_PROMPT msgs

/-! ### Backend invoker (`call_claude_cli`)

The subprocess itself is opaque I/O; what the servers do with it is pure.  In
buffered mode `subprocess.run(..., timeout=300)` either completes (the
function yields `result.stdout`), raises `TimeoutExpired` (the function yields
a fixed sentinel), or raises some other exception `e` (the function yields
`"[Error: " + str(e) + "]"`).  `BackendOutcome` records which of the three
happened. -/

/-- Result of the buffered `subprocess.run` call: completion with captured
stdout/stderr, a `TimeoutExpired`, or any other exception with its text. -/
inductive BackendOutcome where
  | completed (stdout : String) (stderr : String)
  | timedOut
  | failed (errText : String)
deriving DecidableEq, Repr

/-- Wall-clock budget passed as `timeout=300` to `subprocess.run`. -/
def cliTimeoutSeconds : Nat := 300

/-- Text yielded by `call_claude_cli(prompt, stream=False)`, i.e. the value of
`"".join(call_claude_cli(prompt, stream=False))` in the handler. -/
def callClaudeCliBuffered (outcome : BackendOutcome) : String :=
  match outcome with
  | .completed stdout _ => stdout
  | .timedOut => "[Error: Request timed out after 300s]"
  | .failed e => "[Error: " ++ e ++ "]"

/-! ### Buffered response framing -/

/-- Synthetic `usage` block of the buffered response (identical in both
servers). -/
structure Usage where
  prompt_tokens : Nat
  completion_tokens : Nat
  total_tokens : Nat
deriving DecidableEq, Repr

/-- The `usage` dict: `len(prompt) // 4`, `len(response_text) // 4`, and
`(len(prompt) + len(response_text)) // 4`. -/
def mkUsage (prompt responseText : String) : Usage :=
  { prompt_tokens := prompt.length / 4
  , completion_tokens := responseText.length / 4
  , total_tokens := (prompt.length + responseText.length) / 4 }

/-- Buffered (non-streaming) completion object, with the request-independent
fields (`id` suffix, creation time) taken as parameters. -/
structure CompletionResponse where
  id : String
  object : String
  created : Nat
  model : String
  content : String
  finish_reason : String
  usage : Usage
deriving DecidableEq, Repr

/-- The non-streaming branch of `chat_completions`, identical in both servers:
join the invoker's output, strip it for the message content, and account usage
on the unstripped text. -/
def chatCompletionBuffered (hexId : String) (created : Nat) (model : String)
    (prompt : String) (outcome : BackendOutcome) : CompletionResponse :=
  let responseText := callClaudeCliBuffered outcome
  { id := "chatcmpl-" ++ hexId
  , object := "chat.completion"
  , created := created
  , model := model
  , content := pyStrip responseText
  , finish_reason := "stop"
  , usage := mkUsage prompt responseText }

/-! ### Streaming response framing (`generate`)

The `generate` generator, identical in both servers, yields one SSE event per
backend line, then a terminal chunk, then the `[DONE]` sentinel.  JSON
serialisation is out of scope; events are modelled structurally. -/

/-- One SSE event of the stream: a JSON chunk (`delta.content` is `none` for
the empty terminal delta) or the literal `data: [DONE]` line. -/
inductive SSEEvent where
  | chunk (id : String) (created : Nat) (model : String)
      (deltaContent : Option String) (finishReason : Option String)
  | doneSentinel
deriving DecidableEq, Repr

/-- The `generate` generator over the backend's line sequence: mirror of the
`for chunk in call_claude_cli(...)` loop followed by the final chunk and the
`[DONE]` sentinel. -/
def generateEvents (responseId : String) (created : Nat) (model : String) :
    List String → List SSEEvent
  | [] =>
    [ .chunk responseId created model none (some "stop"), .doneSentinel ]
  | line :: rest =>
    .chunk responseId created model (some line) none
      :: generateEvents responseId created model rest

/-! ### RAG retrieval (`retrieve_context`, RAG server only)

The vector store is opaque; a `RetrievalEnv` records what it would answer.
For each of the four collections it holds `none` when the key is absent from
`chroma_collections` (the collection failed to load at startup), or the
outcome of its `query` call: an exception, or the `results['documents'][0]`
list of documents.  `retrieve_context` runs the four collection steps in fixed
order (corpus, personality, rhetorical, humor) inside one `try`: an exception
aborts the remaining steps, keeps the `context_parts` accumulated so far, and
is only printed. -/

/-- The four ChromaDB collections, in the order `retrieve_context` queries
them. -/
inductive Collection where
  | corpus
  | personality
  | rhetorical
  | humor
deriving DecidableEq, Repr

/-- Per-document truncation cap applied by `retrieve_context` (`doc[:500]`,
`doc[:300]`, `[:200]`, `doc[:200]`). -/
def capOf : Collection → Nat
  | .corpus => 500
  | .personality => 300
  | .rhetorical => 200
  | .humor => 200

/-- Outcome of one `collection.query(...)` call: a raised exception, or the
retrieved `results['documents'][0]` list. -/
inductive QueryOutcome where
  | raised (msg : String)
  | answered (docs : List String)
deriving DecidableEq, Repr

/-- What the vector store would do for this request: `chroma_client`
availability, and per collection `none` when absent from `chroma_collections`
or the outcome its `query` call would produce. -/
structure RetrievalEnv where
  clientAvailable : Bool
  corpus : Option QueryOutcome
  personality : Option QueryOutcome
  rhetorical : Option QueryOutcome
  humor : Option QueryOutcome
deriving DecidableEq, Repr

/-- One entry appended to `context_parts`: a section label, or a (truncated)
document fragment, tagged with the collection whose step appended it. -/
structure ContextPart where
  coll : Collection
  isLabel : Bool
  text : String
deriving DecidableEq, Repr

/-- Keyword set gating the humor collection. -/
def humorKeywords : List String :=
  ["absurd", "ridicul", "spirit", "vibra", "energ", "manifest", "univers"]

/-- The `any(kw in user_message.lower() for kw in humor_keywords)` gate. -/
def humorGate (userMessage : String) : Bool :=
  humorKeywords.any (fun kw => pyContains kw (pyLower userMessage))

/-- One collection step inside the `try`: skipped when the collection is not
loaded, aborting (error) when `query` raises, otherwise appending its label
and truncated documents when the document list is non-empty.  The rhetorical
step (`firstDocOnly`) appends only `documents[0][0]`. -/
def stepParts (c : Collection) (label : String) (firstDocOnly : Bool)
    (q : Option QueryOutcome) : Except String (List ContextPart) :=
  match q with
  | none => .ok []
  | some (.raised e) => .error e
  | some (.answered docs) =>
    if docs.isEmpty then .ok []
    else if firstDocOnly then
      .ok [⟨c, true, label⟩, ⟨c, false, pyTake (capOf c) (docs.headD "")⟩]
    else
      .ok (⟨c, true, label⟩ :: docs.map (fun d => ⟨c, false, pyTake (capOf c) d⟩))

/-- Sequencing of the steps under the single `try`: the first exception stops
the loop but keeps everything already appended to `context_parts`. -/
def collectSteps : List (Except String (List ContextPart)) → List ContextPart
  | [] => []
  | .error _ :: _ => []
  | .ok ps :: rest => ps ++ collectSteps rest

/-- Corpus step (`n_results=3`, truncation 500). -/
def corpusStep (env : RetrievalEnv) : Except String (List ContextPart) :=
  stepParts .corpus "CONVERSATION EXAMPLES FROM SERGIO:" false env.corpus

/-- Personality step (`n_results=2`, truncation 300). -/
def personalityStep (env : RetrievalEnv) : Except String (List ContextPart) :=
  stepParts .personality "\nPERSONALITY FRAMEWORKS:" false env.personality

/-- Rhetorical step (`n_results=1`, only `documents[0][0]`, truncation 200). -/
def rhetoricalStep (env : RetrievalEnv) : Except String (List ContextPart) :=
  stepParts .rhetorical "\nRHETORICAL DEVICE TO USE:" true env.rhetorical

/-- Humor step (`n_results=2`, truncation 200); only reached behind the
keyword gate. -/
def humorStep (env : RetrievalEnv) : Except String (List ContextPart) :=
  stepParts .humor "\nHUMOR PATTERNS TO DEPLOY:" false env.humor

/-- The step list of `retrieve_context` for one request: fixed collection
order, humor step behind its keyword gate. -/
def retrievalSteps (env : RetrievalEnv) (userMessage : String) :
    List (Except String (List ContextPart)) :=
  [ corpusStep env
  , personalityStep env
  , rhetoricalStep env
  , if humorGate userMessage then humorStep env else .ok [] ]

/-- Parts contributed by a step that did not raise (used to state what an
aborted retrieval run keeps). -/
def okParts : Except String (List ContextPart) → List ContextPart
  | .ok ps => ps
  | .error _ => []

/-- The `context_parts` list `retrieve_context` ends with (empty when
`chroma_client` is unavailable: the function returns `""` immediately). -/
def retrieveParts (env : RetrievalEnv) (userMessage : String) :
    List ContextPart :=
  if env.clientAvailable then collectSteps (retrievalSteps env userMessage)
  else []

/-- Return value of `retrieve_context`: `"\n".join(context_parts)` when
non-empty, otherwise `""`. -/
def retrieveContext (env : RetrievalEnv) (userMessage : String) : String :=
  let parts := retrieveParts env userMessage
  if parts.isEmpty then "" else pyJoin "\n" (parts.map ContextPart.text)

/-! ### RAG handler prompt construction -/

/-- Sentinel substituted for an empty context
(`"No additional context retrieved."`). -/
def noContextSentinel : String := "No additional context retrieved."

/-- The `user_message` scan: last message whose `msg.get('role')` equals
exactly `'user'`, defaulting to `""`. -/
def lastUserMessage (msgs : List Message) : String :=
  match msgs.reverse.find? (fun m => m.role = some "user") with
  | some m => m.content.getD ""
  | none => ""

/-- The string bound to `personality_context` before formatting: retrieval is
only invoked when `user_message` is non-empty (truthy). -/
def ragRetrievedContext (env : RetrievalEnv) (msgs : List Message) : String :=
  if lastUserMessage msgs ≠ "" then retrieveContext env (lastUserMessage msgs)
  else ""

/-- The context block substituted into the template: the retrieved text, or
the sentinel when it is empty (falsy). -/
def ragContextBlock (env : RetrievalEnv) (msgs : List Message) : String :=
  if ragRetrievedContext env msgs = "" then noContextSentinel
  else ragRetrievedContext env msgs

/-- The RAG server's formatted system prompt for one request. -/
def ragSystemPromptFor (env : RetrievalEnv) (msgs : List Message) : String :=
  sergioRagSystemPrompt (ragContextBlock env msgs)

/-- RAG server transcript for a request. -/
def ragPrompt (env : RetrievalEnv) (msgs : List Message) : String :=
  assemblePrompt (ragSystemPromptFor env msgs) msgs

/-! ### Helper lemmas -/

theorem foldl_snoc_renderMessage (msgs : List Message) (init : List String) :
    msgs.foldl (fun acc m => acc ++ [renderMessage m]) init
      = init ++ msgs.map renderMessage := by
  induction msgs generalizing init with
  | nil => simp
  | cons m rest ih => simp [List.foldl, ih]

theorem promptParts_eq (persona : String) (msgs : List Message) :
    promptParts persona msgs
      = ("System: " ++ persona) :: msgs.map renderMessage := by
  unfold promptParts
  rw [foldl_snoc_renderMessage]
  rfl

theorem pyStartsWith_pyJoin (sep x : String) (xs : List String) :
    pyStartsWith x (pyJoin sep (x :: xs)) = true := by
  cases xs with
  | nil => exact listIsStart_refl x.data
  | cons t rest =>
    show listIsStart x.data (x ++ sep ++ pyJoin sep (t :: rest)).data = true
    rw [String.data_append, String.data_append, List.append_assoc]
    exact listIsStart_append _ _

theorem assemblePrompt_startsWith (persona : String) (msgs : List Message) :
    pyStartsWith ("System: " ++ persona) (assemblePrompt persona msgs) = true := by
  unfold assemblePrompt
  rw [promptParts_eq]
  exact pyStartsWith_pyJoin _ _ _

/-! ### Claims about prompt assembly -/

/-- Claim C3: for every message list (including lists beginning with caller
system messages), the assembled transcript begins with the persona block as a
`"System: "`-prefixed segment, placed before any caller-supplied segment;
caller messages are appended after it and never replace it.  Stated for a
generic persona (covering both servers) and instantiated at each server's
transcript. -/
theorem persona_block_always_first (persona : String) (msgs : List Message) :
    promptParts persona msgs
        = ("System: " ++ persona) :: msgs.map renderMessage ∧
    pyStartsWith ("System: " ++ persona) (assemblePrompt persona msgs) = true ∧
    pyStartsWith ("System: " ++ SERGIO_SYSTEM_PROMPT) (basePrompt msgs) = true ∧
    ∀ env : RetrievalEnv,
      pyStartsWith ("System: " ++ ragSystemPromptFor env msgs)
        (ragPrompt env msgs) = true := by
  refine ⟨promptParts_eq persona msgs, assemblePrompt_startsWith persona msgs,
    assemblePrompt_startsWith _ msgs, fun env => assemblePrompt_startsWith _ msgs⟩

/-- Claim C5: the assembler renders role `system` as `"System: " + content`,
`assistant` as `"Assistant: " + content`, and any other role — including a
missing one (which defaults to `user`) and unknown role strings — as
`"Human: " + content`, without failing; the transcript joins the persona
segment and one segment per message with a double-newline separator. -/
theorem render_rules_and_fallback (m : Message) (persona : String)
    (msgs : List Message) :
    (m.role = some "system" →
       renderMessage m = "System: " ++ m.content.getD "") ∧
    (m.role = some "assistant" →
       renderMessage m = "Assistant: " ++ m.content.getD "") ∧
    (m.role ≠ some "system" → m.role ≠ some "assistant" →
       renderMessage m = "Human: " ++ m.content.getD "") ∧
    assemblePrompt persona msgs
      = pyJoin "\n\n" (("System: " ++ persona) :: msgs.map renderMessage) := by
  refine ⟨?_, ?_, ?_, ?_⟩
  · intro h
    unfold renderMessage
    rw [h]
    rfl
  · intro h
    unfold renderMessage
    rw [h]
    rfl
  · intro h1 h2
    unfold renderMessage
    cases hr : m.role with
    | none => rfl
    | some r =>
      have hr1 : r ≠ "system" := fun e => h1 (by rw [hr, e])
      have hr2 : r ≠ "assistant" := fun e => h2 (by rw [hr, e])
      simp only [Option.getD_some]
      rw [if_neg hr1, if_neg hr2]
  · unfold assemblePrompt
    rw [promptParts_eq]

/-- Witness for C5: a message with role `system` renders with the `System:`
tag, and one with an unknown role and one with a missing role both fall back
to `Human:`. -/
theorem render_rules_and_fallback_witness :
    renderMessage ⟨some "system", some "s"⟩
        = "System: " ++ (some "s" : Option String).getD "" ∧
    renderMessage ⟨some "tool", some "x"⟩
        = "Human: " ++ (some "x" : Option String).getD "" ∧
    renderMessage ⟨none, none⟩ = "Human: " ++ (none : Option String).getD "" :=
  ⟨(render_rules_and_fallback ⟨some "system", some "s"⟩ "" []).1 rfl,
   (render_rules_and_fallback ⟨some "tool", some "x"⟩ "" []).2.2.1
     (by decide) (by decide),
   (render_rules_and_fallback ⟨none, none⟩ "" []).2.2.1
     (by decide) (by decide)⟩

/-! ### Claims about streaming framing -/

theorem generateEvents_closed_form (rid : String) (cr : Nat) (model : String)
    (lines : List String) :
    generateEvents rid cr model lines
      = lines.map (fun l => SSEEvent.chunk rid cr model (some l) none)
          ++ [SSEEvent.chunk rid cr model none (some "stop"),
              SSEEvent.doneSentinel] := by
  induction lines with
  | nil => rfl
  | cons l rest ih => simp [generateEvents, ih]

/-- Claim C4: for every streaming request and every backend output (including
zero lines), the emitted SSE sequence is one content chunk per backend line
with `finish_reason` null, all sharing the response id and creation timestamp,
then exactly one terminal chunk with empty delta and `finish_reason` `stop`,
then exactly one `[DONE]` sentinel, which is the last event. -/
theorem streaming_event_shape (rid : String) (cr : Nat) (model : String)
    (lines : List String) :
    generateEvents rid cr model lines
      = lines.map (fun l => SSEEvent.chunk rid cr model (some l) none)
          ++ [SSEEvent.chunk rid cr model none (some "stop"),
              SSEEvent.doneSentinel] ∧
    (generateEvents rid cr model lines).countP
        (fun e => e = SSEEvent.doneSentinel) = 1 ∧
    (generateEvents rid cr model lines).countP
        (fun e => e = SSEEvent.chunk rid cr model none (some "stop")) = 1 ∧
    (generateEvents rid cr model lines).getLast? = some SSEEvent.doneSentinel := by
  refine ⟨generateEvents_closed_form rid cr model lines, ?_, ?_, ?_⟩
  · rw [generateEvents_closed_form]
    simp [List.countP_append, List.countP_cons, List.countP_map,
      List.countP_eq_zero, Function.comp]
  · rw [generateEvents_closed_form]
    simp [List.countP_append, List.countP_cons, List.countP_map,
      List.countP_eq_zero, Function.comp]
  · rw [generateEvents_closed_form]
    rw [show lines.map (fun l => SSEEvent.chunk rid cr model (some l) none)
          ++ [SSEEvent.chunk rid cr model none (some "stop"),
              SSEEvent.doneSentinel]
        = (lines.map (fun l => SSEEvent.chunk rid cr model (some l) none)
            ++ [SSEEvent.chunk rid cr model none (some "stop")])
            ++ [SSEEvent.doneSentinel] by simp]
    exact List.getLast?_concat _

/-! ### Claims about buffered framing and usage accounting -/

set_option maxRecDepth 2000 in
theorem sergioCore_length : SERGIO_CORE.length = 2004 := by
  simp only [SERGIO_CORE, String.length_append]
  decide

set_option maxRecDepth 2000 in
theorem basePrompt_hola_length :
    (basePrompt [⟨some "user", some "hola"⟩]).length = 2026 := by
  have h : basePrompt [⟨some "user", some "hola"⟩]
      = ("System: " ++ SERGIO_SYSTEM_PROMPT) ++ "\n\n" ++ "Human: hola" := by
    unfold basePrompt assemblePrompt
    rw [promptParts_eq]
    rfl
  rw [h]
  simp only [String.length_append, SERGIO_SYSTEM_PROMPT, sergioCore_length]
  decide

/-- Claim C1 (counterexample): at the concrete request
`messages=[{role:'user', content:'hola'}]` on the base server (prompt length
2026) with backend output `"ok"` (length 2), the usage block has
`prompt_tokens = 506`, `completion_tokens = 0` but `total_tokens = 507`: the
code computes `(len(prompt) + len(completion)) // 4`, not the sum of the two
floored values. -/
theorem usage_total_counterexample :
    ¬ ((mkUsage (basePrompt [⟨some "user", some "hola"⟩]) "ok").total_tokens
        = (mkUsage (basePrompt [⟨some "user", some "hola"⟩]) "ok").prompt_tokens
          + (mkUsage (basePrompt [⟨some "user", some "hola"⟩]) "ok").completion_tokens) := by
  simp only [mkUsage]
  rw [basePrompt_hola_length]
  decide

/-- Claim C1 (amended): the usage block has
`prompt_tokens = len(prompt) // 4`, `completion_tokens = len(completion) // 4`
and `total_tokens = (len(prompt) + len(completion)) // 4`; the total therefore
lies between the sum of the two floored values and that sum plus one, and
equals the sum exactly when the two length remainders modulo 4 add to less
than 4. -/
theorem usage_total_amended (p c : String) :
    (mkUsage p c).prompt_tokens = p.length / 4 ∧
    (mkUsage p c).completion_tokens = c.length / 4 ∧
    (mkUsage p c).total_tokens = (p.length + c.length) / 4 ∧
    (mkUsage p c).prompt_tokens + (mkUsage p c).completion_tokens
      ≤ (mkUsage p c).total_tokens ∧
    (mkUsage p c).total_tokens
      ≤ (mkUsage p c).prompt_tokens + (mkUsage p c).completion_tokens + 1 ∧
    ((mkUsage p c).total_tokens
        = (mkUsage p c).prompt_tokens + (mkUsage p c).completion_tokens
      ↔ p.length % 4 + c.length % 4 < 4) := by
  refine ⟨rfl, rfl, rfl, ?_, ?_, ?_⟩ <;> simp only [mkUsage] <;> omega

/-- Claim C8: the buffered invocation is configured with a 300-second
wall-clock timeout; a timeout yields the fixed sentinel text and any other
execution error yields a sentinel embedding the error detail (the invoker is a
total function — it never propagates the exception); for every outcome the
handler still produces a normally shaped completion object
(`object = "chat.completion"`, `finish_reason = "stop"`), with the timeout
sentinel as its content in the timeout case. -/
theorem buffered_invoker_sentinels (hexId : String) (created : Nat)
    (model : String) (prompt e : String) (outcome : BackendOutcome) :
    cliTimeoutSeconds = 300 ∧
    callClaudeCliBuffered BackendOutcome.timedOut
      = "[Error: Request timed out after 300s]" ∧
    callClaudeCliBuffered (BackendOutcome.failed e) = "[Error: " ++ e ++ "]" ∧
    (chatCompletionBuffered hexId created model prompt outcome).object
      = "chat.completion" ∧
    (chatCompletionBuffered hexId created model prompt outcome).finish_reason
      = "stop" ∧
    (chatCompletionBuffered hexId created model prompt
        BackendOutcome.timedOut).content
      = "[Error: Request timed out after 300s]" := by
  refine ⟨rfl, rfl, rfl, rfl, rfl, ?_⟩
  show pyStrip "[Error: Request timed out after 300s]"
    = "[Error: Request timed out after 300s]"
  decide

/-- Claim C9: in buffered mode the returned content is the backend stdout with
leading and trailing whitespace stripped, while `completion_tokens` is
computed from the unstripped stdout; whenever stripping removes at least four
characters, `completion_tokens` strictly exceeds `len(content) // 4`. -/
theorem stripped_content_vs_usage (hexId : String) (created : Nat)
    (model : String) (prompt stdout stderr : String) :
    (chatCompletionBuffered hexId created model prompt
        (BackendOutcome.completed stdout stderr)).content = pyStrip stdout ∧
    (chatCompletionBuffered hexId created model prompt
        (BackendOutcome.completed stdout stderr)).usage.completion_tokens
      = stdout.length / 4 ∧
    ((pyStrip stdout).length + 4 ≤ stdout.length →
      (chatCompletionBuffered hexId created model prompt
          (BackendOutcome.completed stdout stderr)).content.length / 4
        < (chatCompletionBuffered hexId created model prompt
            (BackendOutcome.completed stdout stderr)).usage.completion_tokens) := by
  refine ⟨rfl, rfl, ?_⟩
  intro h
  show (pyStrip stdout).length / 4 < stdout.length / 4
  omega

/-- Witness for C9: the backend output `"hi    "` (four trailing spaces)
strips to `"hi"`; the response counts one completion token from the unstripped
six characters while the stripped content yields zero. -/
theorem stripped_content_vs_usage_witness :
    (pyStrip "hi    ").length + 4 ≤ ("hi    " : String).length ∧
    (chatCompletionBuffered "ab" 0 "claude-max" "p"
        (BackendOutcome.completed "hi    " "")).content.length / 4
      < (chatCompletionBuffered "ab" 0 "claude-max" "p"
          (BackendOutcome.completed "hi    " "")).usage.completion_tokens :=
  ⟨by decide,
   (stripped_content_vs_usage "ab" 0 "claude-max" "p" "hi    " "").2.2 (by decide)⟩

/-! ### Claims about retrieval -/

theorem collectSteps_cons_ok (ps : List ContextPart)
    (rest : List (Except String (List ContextPart))) :
    collectSteps (Except.ok ps :: rest) = ps ++ collectSteps rest := rfl

theorem collectSteps_cons_error (e : String)
    (rest : List (Except String (List ContextPart))) :
    collectSteps (Except.error e :: rest) = [] := rfl

theorem retrieveParts_eq_collect (env : RetrievalEnv) (u : String)
    (hc : env.clientAvailable = true) :
    retrieveParts env u = collectSteps (retrievalSteps env u) := by
  unfold retrieveParts
  rw [hc]
  rfl

/-- Claim C6: whenever retrieval produces zero fragments (vector store
unavailable, no collections loaded, or every queried collection returning
nothing — all cases where `context_parts` ends empty), the block substituted
into the persona template is exactly the fixed sentinel, and the system prompt
and transcript are still assembled. -/
theorem empty_retrieval_sentinel (env : RetrievalEnv) (msgs : List Message)
    (h : retrieveParts env (lastUserMessage msgs) = []) :
    ragContextBlock env msgs = noContextSentinel ∧
    ragSystemPromptFor env msgs = SERGIO_CORE ++ "\n\n" ++ noContextSentinel ∧
    ragPrompt env msgs
      = assemblePrompt (SERGIO_CORE ++ "\n\n" ++ noContextSentinel) msgs := by
  have hctx : ragRetrievedContext env msgs = "" := by
    unfold ragRetrievedContext
    by_cases hu : lastUserMessage msgs = ""
    · simp [hu]
    · simp [hu, retrieveContext, h]
  have hblock : ragContextBlock env msgs = noContextSentinel := by
    simp [ragContextBlock, hctx]
  refine ⟨hblock, ?_, ?_⟩
  · rw [ragSystemPromptFor, hblock]
    rfl
  · rw [ragPrompt, ragSystemPromptFor, hblock]
    rfl

/-- Witness for C6: with the vector-store client unavailable and a plain user
request, the context block is the sentinel. -/
theorem empty_retrieval_sentinel_witness :
    retrieveParts ⟨false, none, none, none, none⟩
        (lastUserMessage [⟨some "user", some "hola"⟩]) = [] ∧
    ragContextBlock ⟨false, none, none, none, none⟩
        [⟨some "user", some "hola"⟩] = noContextSentinel :=
  ⟨by decide,
   (empty_retrieval_sentinel ⟨false, none, none, none, none⟩
      [⟨some "user", some "hola"⟩] (by decide)).1⟩

/-- Claim C10: the retrieval query is the content of the last message whose
role is exactly `user` (characterised by the recursion from the right);
messages with a missing or different role are never selected; and when no such
message exists or its content is empty, the context block is the sentinel for
every retrieval environment — retrieval is skipped even when collections would
answer. -/
theorem last_user_query_selection (msgs : List Message) (m : Message)
    (env : RetrievalEnv) :
    lastUserMessage ([] : List Message) = "" ∧
    lastUserMessage (msgs ++ [m])
      = (if m.role = some "user" then m.content.getD ""
         else lastUserMessage msgs) ∧
    (lastUserMessage msgs = "" →
       ragContextBlock env msgs = noContextSentinel) := by
  refine ⟨rfl, ?_, ?_⟩
  · unfold lastUserMessage
    rw [List.reverse_append]
    simp only [List.reverse_cons, List.reverse_nil, List.nil_append,
      List.singleton_append]
    by_cases hm : m.role = some "user"
    · rw [List.find?_cons_of_pos _ (by simp [hm]), if_pos hm]
    · rw [List.find?_cons_of_neg _ (by simp [hm]), if_neg hm]
  · intro h
    have hctx : ragRetrievedContext env msgs = "" := by
      unfold ragRetrievedContext
      simp [h]
    simp [ragContextBlock, hctx]

/-- Witness for C10: a message carrying content but no role key is not taken
as the retrieval query, and the sentinel is used although the corpus
collection would have answered. -/
theorem last_user_query_selection_witness :
    lastUserMessage [⟨none, some "hola"⟩] = "" ∧
    ragContextBlock ⟨true, some (QueryOutcome.answered ["doc"]), none, none, none⟩
        [⟨none, some "hola"⟩] = noContextSentinel :=
  ⟨by decide,
   (last_user_query_selection [⟨none, some "hola"⟩] ⟨none, none⟩
      ⟨true, some (QueryOutcome.answered ["doc"]), none, none, none⟩).2.2
     (by decide)⟩

/-- Claim C2 (counterexample): with the corpus lookup raising and the
personality lookup succeeding, the whole context comes back empty — the
personality collection's results do not appear, so a failing collection is not
the only one skipped.  (With the corpus merely returning nothing instead of
raising, the personality results do appear.) -/
theorem retrieval_error_counterexample :
    retrieveContext
        ⟨true, some (QueryOutcome.raised "boom"),
          some (QueryOutcome.answered ["personality doc"]), none, none⟩
        "hola" = "" ∧
    retrieveContext
        ⟨true, some (QueryOutcome.answered []),
          some (QueryOutcome.answered ["personality doc"]), none, none⟩
        "hola" ≠ "" := by
  constructor <;> decide

/-- Claim C2 (amended): an exception in a collection lookup aborts the
remaining retrieval steps: that collection and every later one in the fixed
order (corpus, personality, rhetorical, humor) are skipped, the parts already
collected from earlier collections are kept, and the request never fails —
`retrieve_context` still returns (a possibly empty context). -/
theorem retrieval_error_skips_rest (env : RetrievalEnv) (u : String)
    (e : String) (hc : env.clientAvailable = true) :
    (env.corpus = some (QueryOutcome.raised e) → retrieveParts env u = []) ∧
    ((corpusStep env).isOk = true →
       env.personality = some (QueryOutcome.raised e) →
       retrieveParts env u = okParts (corpusStep env)) ∧
    ((corpusStep env).isOk = true → (personalityStep env).isOk = true →
       env.rhetorical = some (QueryOutcome.raised e) →
       retrieveParts env u
         = okParts (corpusStep env) ++ okParts (personalityStep env)) ∧
    ((corpusStep env).isOk = true → (personalityStep env).isOk = true →
       (rhetoricalStep env).isOk = true → humorGate u = true →
       env.humor = some (QueryOutcome.raised e) →
       retrieveParts env u
         = okParts (corpusStep env) ++ okParts (personalityStep env)
             ++ okParts (rhetoricalStep env)) := by
  rw [retrieveParts_eq_collect env u hc]
  unfold retrievalSteps
  refine ⟨?_, ?_, ?_, ?_⟩
  · intro h
    have hcs : corpusStep env = .error e := by
      unfold corpusStep stepParts
      rw [h]
    rw [hcs, collectSteps_cons_error]
  · intro hok h
    have hps : personalityStep env = .error e := by
      unfold personalityStep stepParts
      rw [h]
    rw [hps]
    cases hcs : corpusStep env with
    | error e2 => rw [hcs] at hok; simp [Except.isOk, Except.toBool] at hok
    | ok ps =>
      rw [collectSteps_cons_ok, collectSteps_cons_error]
      simp [okParts]
  · intro hok1 hok2 h
    have hrs : rhetoricalStep env = .error e := by
      unfold rhetoricalStep stepParts
      rw [h]
    rw [hrs]
    cases hcs : corpusStep env with
    | error e2 => rw [hcs] at hok1; simp [Except.isOk, Except.toBool] at hok1
    | ok ps =>
      cases hps : personalityStep env with
      | error e2 => rw [hps] at hok2; simp [Except.isOk, Except.toBool] at hok2
      | ok qs =>
        rw [collectSteps_cons_ok, collectSteps_cons_ok,
          collectSteps_cons_error]
        simp [okParts]
  · intro hok1 hok2 hok3 hg h
    have hhs : humorStep env = .error e := by
      unfold humorStep stepParts
      rw [h]
    rw [if_pos hg, hhs]
    cases hcs : corpusStep env with
    | error e2 => rw [hcs] at hok1; simp [Except.isOk, Except.toBool] at hok1
    | ok ps =>
      cases hps : personalityStep env with
      | error e2 => rw [hps] at hok2; simp [Except.isOk, Except.toBool] at hok2
      | ok qs =>
        cases hrs : rhetoricalStep env with
        | error e2 => rw [hrs] at hok3; simp [Except.isOk, Except.toBool] at hok3
        | ok rs =>
          rw [collectSteps_cons_ok, collectSteps_cons_ok,
            collectSteps_cons_ok, collectSteps_cons_error]
          simp [okParts]

/-- Witness for C2 (amended): corpus answers one document, the personality
lookup raises; retrieval keeps exactly the corpus parts. -/
theorem retrieval_error_skips_rest_witness :
    (corpusStep ⟨true, some (QueryOutcome.answered ["cdoc"]),
        some (QueryOutcome.raised "boom"), none, none⟩).isOk = true ∧
    retrieveParts ⟨true, some (QueryOutcome.answered ["cdoc"]),
        some (QueryOutcome.raised "boom"), none, none⟩ "hola"
      = okParts (corpusStep ⟨true, some (QueryOutcome.answered ["cdoc"]),
          some (QueryOutcome.raised "boom"), none, none⟩) :=
  ⟨by decide,
   (retrieval_error_skips_rest ⟨true, some (QueryOutcome.answered ["cdoc"]),
      some (QueryOutcome.raised "boom"), none, none⟩ "hola" "boom" rfl).2.1
     (by decide) rfl⟩

theorem mem_collectSteps {p : ContextPart} :
    ∀ l : List (Except String (List ContextPart)),
      p ∈ collectSteps l → ∃ ps, Except.ok ps ∈ l ∧ p ∈ ps := by
  intro l
  induction l with
  | nil => intro h; simp [collectSteps] at h
  | cons s rest ih =>
    cases s with
    | error e => intro h; simp [collectSteps_cons_error] at h
    | ok ps =>
      intro h
      rw [collectSteps_cons_ok] at h
      rcases List.mem_append.1 h with h1 | h2
      · exact ⟨ps, List.mem_cons_self _ _, h1⟩
      · obtain ⟨qs, hin, hq⟩ := ih h2
        exact ⟨qs, List.mem_cons_of_mem _ hin, hq⟩

theorem stepParts_frag_cap (c : Collection) (label : String) (f : Bool)
    (q : Option QueryOutcome) (ps : List ContextPart)
    (h : stepParts c label f q = Except.ok ps) :
    ∀ p ∈ ps, p.isLabel = false → p.coll = c ∧ p.text.length ≤ capOf c := by
  cases q with
  | none =>
    simp only [stepParts, Except.ok.injEq] at h
    subst h
    simp
  | some qo =>
    cases qo with
    | raised e => simp [stepParts] at h
    | answered docs =>
      simp only [stepParts] at h
      by_cases hd : docs.isEmpty
      · rw [if_pos hd] at h
        simp only [Except.ok.injEq] at h
        subst h
        simp
      · rw [if_neg hd] at h
        cases f with
        | true =>
          rw [if_pos rfl] at h
          simp only [Except.ok.injEq] at h
          subst h
          intro p hp hl
          rcases List.mem_cons.1 hp with h1 | h2
          · subst h1; simp at hl
          · rcases List.mem_singleton.1 h2 with h3
            subst h3
            exact ⟨rfl, List.length_take_le _ _⟩
        | false =>
          rw [if_neg (by simp)] at h
          simp only [Except.ok.injEq] at h
          subst h
          intro p hp hl
          rcases List.mem_cons.1 hp with h1 | h2
          · subst h1; simp at hl
          · obtain ⟨d, _, hdp⟩ := List.mem_map.1 h2
            subst hdp
            exact ⟨rfl, List.length_take_le _ _⟩

/-- Claim C7: every non-label fragment that retrieval emits respects its
collection's truncation cap: 500 characters for corpus conversation examples,
300 for personality framework documents, 200 for rhetorical devices and for
humor patterns. -/
theorem fragment_truncation_cap (env : RetrievalEnv) (u : String)
    (p : ContextPart) (hp : p ∈ retrieveParts env u)
    (hl : p.isLabel = false) :
    p.text.length ≤ capOf p.coll ∧
    capOf .corpus = 500 ∧ capOf .personality = 300 ∧
    capOf .rhetorical = 200 ∧ capOf .humor = 200 := by
  refine ⟨?_, rfl, rfl, rfl, rfl⟩
  unfold retrieveParts at hp
  by_cases hc : env.clientAvailable = true
  · rw [if_pos hc] at hp
    obtain ⟨ps, hok, hpp⟩ := mem_collectSteps _ hp
    unfold retrievalSteps at hok
    simp only [List.mem_cons, List.not_mem_nil, or_false] at hok
    rcases hok with h1 | h2 | h3 | h4
    · obtain ⟨hcoll, hlen⟩ := stepParts_frag_cap _ _ _ _ _ h1.symm p hpp hl
      rw [hcoll]
      exact hlen
    · obtain ⟨hcoll, hlen⟩ := stepParts_frag_cap _ _ _ _ _ h2.symm p hpp hl
      rw [hcoll]
      exact hlen
    · obtain ⟨hcoll, hlen⟩ := stepParts_frag_cap _ _ _ _ _ h3.symm p hpp hl
      rw [hcoll]
      exact hlen
    · by_cases hg : humorGate u = true
      · rw [if_pos hg] at h4
        obtain ⟨hcoll, hlen⟩ := stepParts_frag_cap _ _ _ _ _ h4.symm p hpp hl
        rw [hcoll]
        exact hlen
      · rw [if_neg hg] at h4
        simp only [Except.ok.injEq] at h4
        subst h4
        simp at hpp
  · rw [if_neg hc] at hp
    simp at hp

set_option maxRecDepth 4000 in
/-- Witness for C7: a 600-character corpus document is emitted truncated to at
most 500 characters. -/
theorem fragment_truncation_cap_witness :
    (⟨Collection.corpus, false, pyTake 500 ⟨List.replicate 600 'a'⟩⟩ : ContextPart)
        ∈ retrieveParts
            ⟨true, some (QueryOutcome.answered [⟨List.replicate 600 'a'⟩]),
              none, none, none⟩ "q" ∧
    (pyTake 500 (⟨List.replicate 600 'a'⟩ : String)).length
      ≤ capOf Collection.corpus :=
  ⟨by decide,
   (fragment_truncation_cap
      ⟨true, some (QueryOutcome.answered [⟨List.replicate 600 'a'⟩]),
        none, none, none⟩ "q"
      ⟨Collection.corpus, false, pyTake 500 ⟨List.replicate 600 'a'⟩⟩
      (by decide) rfl).1⟩

end IfEmotion
